import Mathlib

/-!
# Translation Action Controller — shallow embedding

A shallow embedding of the translation action controller of
`src/renderer/src/windows/selection/action/components/ActionTranslate.tsx`.
The component's reactive state (useState), mutable refs (useRef) and the
observable effects it issues (submits to the completion service, settings
writes, abort requests, trace pauses, log records) are collected in one
`CState` record; every handler of the component becomes a pure state
transition over `CState`, parameterised by the external world `Env`
(language catalog, catalog-ready flag, selection payload, persisted
language preference).

External collaborators that are not part of the analysed source
(the translate config constants, `AssistantService`, the message types)
are modelled from the spec; each such definition is marked in its doc
comment.
-/

namespace ActionTranslate

/-- A translation target language: a value object identified by its language
code.  Display metadata is irrelevant to the controller and omitted. -/
structure TranslateLanguage where
  langCode : String
deriving DecidableEq, Repr

/-- Modelled from the spec: the language catalog's sentinel value returned on
lookup misses (the `UNKNOWN` constant of the translate config, not part of
the analysed source). -/
def UNKNOWN : TranslateLanguage := ⟨"unknown"⟩

namespace LanguagesEnum

/-- Modelled from the spec: the fixed default language constant zh-CN the
controller falls back to when the interface language is unresolvable. -/
def zhCN : TranslateLanguage := ⟨"zh-CN"⟩

end LanguagesEnum

/-- The per-request assistant context: target language and selection text
bound into a ready-to-run prompt. -/
structure Assistant where
  id : String
  targetLanguage : TranslateLanguage
  content : String
deriving DecidableEq, Repr

/-- Modelled from the spec: `getDefaultTranslateAssistant` of
`AssistantService` builds the assistant context binding the target language
and the selected text to a ready-to-run translation prompt, under the fixed
translate-assistant id. -/
def getDefaultTranslateAssistant (targetLanguage : TranslateLanguage)
    (text : String) : Assistant :=
  { id := "translate", targetLanguage := targetLanguage, content := text }

/-- The conversation scope grouping a request and its messages. -/
structure Topic where
  id : String
  assistantId : String
deriving DecidableEq, Repr

/-- Modelled from the spec: `getDefaultTopic` of `AssistantService` creates
the topic context scoped to an assistant id (a fresh uuid in the real
service; deterministic and non-empty here). -/
def getDefaultTopic (assistantId : String) : Topic :=
  { id := "topic-" ++ assistantId, assistantId := assistantId }

/-- Modelled from the spec: the assistant-message lifecycle states of
`AssistantMessageStatus` (types/newMessage, not part of the analysed
source); `other` carries any value outside the enumerated set. -/
inductive AssistantMessageStatus where
  | pending
  | processing
  | searching
  | success
  | paused
  | error
  | other (value : String)
deriving DecidableEq, Repr

/-- A message of the topic's live message list; the controller only reads the
role and the lifecycle status. -/
structure Message where
  role : String
  status : AssistantMessageStatus
deriving DecidableEq, Repr

/-- The local 3-state status enum driving the view. -/
inductive ControllerStatus where
  | preparing
  | streaming
  | finished
deriving DecidableEq, Repr

/-- One call to `processMessages`: the submitted assistant, the topic it runs
over, and the prompt content (the assistant's own content in the source). -/
structure Submit where
  assistant : Assistant
  topic : Topic
  promptContent : String
deriving DecidableEq, Repr

/-- The external world the component reads: interface language setting,
language catalog with its ready flag, the selection payload, and the result
of reading the persisted language-preference record (`none` when the record
is missing). -/
structure Env where
  language : String
  catalog : String → TranslateLanguage
  isLanguagesLoaded : Bool
  selectedText : Option String
  savedTargetLang : Option String

/-- The component's state: the useState cells, the useRef cells, and the
traces of the observable effects it issues. -/
structure CState where
  targetLanguage : TranslateLanguage
  error : String
  status : ControllerStatus
  contentToCopy : String
  initialized : Bool
  assistantRef : Option Assistant
  topicRef : Option Topic
  askId : String
  targetLangRef : TranslateLanguage
  warnings : Nat
  errorsLogged : Nat
  topicCreations : Nat
  submits : List Submit
  dbPuts : List (String × String)
  aborts : List String
  pausedTraces : List String
deriving DecidableEq, Repr

/-- The `useState targetLanguage` initializer: resolve the interface language
through the catalog; on the `UNKNOWN` sentinel fall back to zh-CN and warn.
Returns the resolved language and whether a warning was logged. -/
def initialTargetLanguage (env : Env) : TranslateLanguage × Bool :=
  let lang := env.catalog env.language
  if lang ≠ UNKNOWN then (lang, false)
  else (LanguagesEnum.zhCN, true)

/-- The component's state right after mount: the useState initializers and
the initial ref values, with empty effect traces. -/
def mkInitialState (env : Env) : CState :=
  let lw := initialTargetLanguage env
  { targetLanguage := lw.1
    error := ""
    status := ControllerStatus.preparing
    contentToCopy := ""
    initialized := false
    assistantRef := none
    topicRef := none
    askId := ""
    targetLangRef := lw.1
    warnings := if lw.2 then 1 else 0
    errorsLogged := 0
    topicCreations := 0
    submits := []
    dbPuts := []
    aborts := []
    pausedTraces := [] }

/-- `updateTargetLanguage`: skip unless the catalog is loaded; read the
persisted preference record; when present with a truthy (non-empty) value,
resolve it through the catalog and overwrite both the reactive state and the
mutable mirror. -/
def updateTargetLanguage (env : Env) (s : CState) : CState :=
  if env.isLanguagesLoaded = false then s
  else
    match env.savedTargetLang with
    | none => s
    | some v =>
      if v = "" then s
      else
        let targetLang := env.catalog v
        { s with targetLanguage := targetLang, targetLangRef := targetLang }

/-- The `initialize` callback: no-op when already initialized or the catalog
is not loaded; with an undefined selection payload log an error and skip;
otherwise run `updateTargetLanguage`, build the assistant from the mutable
language mirror and the selected text, create the topic from the assistant's
id, and mark the controller initialized. -/
def initTranslate (env : Env) (s : CState) : CState :=
  if s.initialized then s
  else if env.isLanguagesLoaded = false then s
  else
    match env.selectedText with
    | none => { s with errorsLogged := s.errorsLogged + 1 }
    | some text =>
      let s1 := updateTargetLanguage env s
      let a := getDefaultTranslateAssistant s1.targetLangRef text
      { s1 with
        assistantRef := some a
        topicRef := some (getDefaultTopic a.id)
        topicCreations := s1.topicCreations + 1
        initialized := true }

/-- Whether the selection payload is truthy in the source's sense: defined
and non-empty. -/
def textTruthy : Option String → Bool
  | none => false
  | some v => v ≠ ""

/-- `fetchResult`: no-op unless the assistant ref, the topic ref, a truthy
selection payload and the initialized flag are all present; otherwise
rebuild the assistant from the current reactive target language, store it in
the ref and submit it over the existing topic. -/
def fetchResult (env : Env) (s : CState) : CState :=
  match s.assistantRef, s.topicRef, env.selectedText with
  | some _, some topic, some text =>
    if text = "" then s
    else if s.initialized = false then s
    else
      let assistant := getDefaultTranslateAssistant s.targetLanguage text
      { s with
        assistantRef := some assistant
        submits := s.submits ++ [⟨assistant, topic, assistant.content⟩] }
  | _, _, _ => s

/-- `handleChangeLanguage`: no-op when not initialized; otherwise set the
reactive target language and its mutable mirror and persist the new code
under the fixed settings key. -/
def handleChangeLanguage (newTargetLanguage : TranslateLanguage)
    (s : CState) : CState :=
  if s.initialized = false then s
  else
    { s with
      targetLanguage := newTargetLanguage
      targetLangRef := newTargetLanguage
      dbPuts := s.dbPuts ++ [("translate:target:language", newTargetLanguage.langCode)] }

/-- A user-driven language change together with the re-fetch the reactive
layer triggers: when the change actually lands in the reactive state (the
controller is initialized and the value differs from the current one), the
`fetchResult` effect re-runs once on the updated state. -/
def changeLanguageAndRefetch (env : Env) (newTargetLanguage : TranslateLanguage)
    (s : CState) : CState :=
  let s1 := handleChangeLanguage newTargetLanguage s
  if s.initialized = true ∧ newTargetLanguage ≠ s.targetLanguage then
    fetchResult env s1
  else s1

/-- `handlePause`: when an ask id has been recorded, request cancellation of
that request; when the topic ref holds a topic with a truthy id, signal the
tracing layer to pause that topic. -/
def handlePause (s : CState) : CState :=
  let s1 :=
    if s.askId = "" then s
    else { s with aborts := s.aborts ++ [s.askId] }
  match s1.topicRef with
  | none => s1
  | some topic =>
    if topic.id = "" then s1
    else { s1 with pausedTraces := s1.pausedTraces ++ [topic.id] }

/-- `handleRegenerate`: clear the copyable content, then run `fetchResult`
unconditionally. -/
def handleRegenerate (env : Env) (s : CState) : CState :=
  fetchResult env { s with contentToCopy := "" }

/-- The last message of role assistant in the topic's message list, or
`none` when there is none. -/
def currentAssistantMessage (msgs : List Message) : Option Message :=
  (msgs.filter (fun m => m.role == "assistant")).getLast?

/-- The status-sync switch: map the observed message status (or `none` for a
missing message) to the controller status, returning the updated status and
whether the unexpected-status warning was logged. -/
def syncStatusStep (m? : Option Message) (status : ControllerStatus) :
    ControllerStatus × Bool :=
  match m? with
  | none => (status, false)
  | some m =>
    match m.status with
    | AssistantMessageStatus.processing => (ControllerStatus.streaming, false)
    | AssistantMessageStatus.pending => (ControllerStatus.streaming, false)
    | AssistantMessageStatus.searching => (ControllerStatus.streaming, false)
    | AssistantMessageStatus.paused => (ControllerStatus.finished, false)
    | AssistantMessageStatus.error => (ControllerStatus.finished, false)
    | AssistantMessageStatus.success => (ControllerStatus.finished, false)
    | AssistantMessageStatus.other _ => (status, true)

/-- The status synchronizer over a topic's full message list. -/
def syncFromMessages (msgs : List Message) (status : ControllerStatus) :
    ControllerStatus × Bool :=
  syncStatusStep (currentAssistantMessage msgs) status

/-- The fetch callbacks: record the ask id, mark streaming, mark finished
with the copyable content, or mark finished with the error message. -/
def onSetAskId (id : String) (s : CState) : CState :=
  { s with askId := id }

def onStream (s : CState) : CState :=
  { s with status := ControllerStatus.streaming }

def onFinish (content : String) (s : CState) : CState :=
  { s with status := ControllerStatus.finished, contentToCopy := content }

def onError (message : String) (s : CState) : CState :=
  { s with status := ControllerStatus.finished, error := message }

/-- Every operation the controller performs on its state: the handlers, the
reactive effects and the fetch callbacks. -/
inductive Op where
  | init (env : Env)
  | updateLang (env : Env)
  | fetch (env : Env)
  | changeLang (env : Env) (lang : TranslateLanguage)
  | pause
  | regenerate (env : Env)
  | sync (msgs : List Message)
  | setAskId (id : String)
  | stream
  | finish (content : String)
  | errCb (message : String)

/-- The state transition of one operation. -/
def step : Op → CState → CState
  | Op.init env, s => initTranslate env s
  | Op.updateLang env, s => updateTargetLanguage env s
  | Op.fetch env, s => fetchResult env s
  | Op.changeLang env lang, s => changeLanguageAndRefetch env lang s
  | Op.pause, s => handlePause s
  | Op.regenerate env, s => handleRegenerate env s
  | Op.sync msgs, s =>
    let r := syncFromMessages msgs s.status
    { s with status := r.1, warnings := s.warnings + (if r.2 then 1 else 0) }
  | Op.setAskId id, s => onSetAskId id s
  | Op.stream, s => onStream s
  | Op.finish content, s => onFinish content s
  | Op.errCb message, s => onError message s

/-- Repeated invocations of the init callback, as the reactive layer
re-triggers it on dependency changes. -/
def initSeq (envs : List Env) (s : CState) : CState :=
  envs.foldl (fun st e => initTranslate e st) s

/-! ## Concrete environments and states used to evaluate the theorems -/

/-- A ready environment: loaded catalog resolving the interface language,
non-empty selection, no persisted preference. -/
def demoEnv : Env :=
  { language := "en"
    catalog := fun c => if c = "en" then ⟨"en-US"⟩ else UNKNOWN
    isLanguagesLoaded := true
    selectedText := some "hello"
    savedTargetLang := none }

/-- The controller right after a completed initialization in `demoEnv`. -/
def demoReady : CState := initTranslate demoEnv (mkInitialState demoEnv)

/-- `demoReady` after a finished fetch left copyable content behind. -/
def demoFinished : CState :=
  { demoReady with
    contentToCopy := "old translation"
    status := ControllerStatus.finished }

/-- An environment whose selection payload is the empty string: defined, so
initialization completes, but falsy, so `fetchResult` never fires. -/
def emptySelEnv : Env :=
  { language := "en"
    catalog := fun c => if c = "en" then ⟨"en-US"⟩ else UNKNOWN
    isLanguagesLoaded := true
    selectedText := some ""
    savedTargetLang := none }

/-- The controller after completed initialization in `emptySelEnv`. -/
def emptySelReady : CState := initTranslate emptySelEnv (mkInitialState emptySelEnv)

/-- An environment whose language catalog is not yet loaded. -/
def notLoadedEnv : Env :=
  { language := "en"
    catalog := fun _ => UNKNOWN
    isLanguagesLoaded := false
    selectedText := some "hello"
    savedTargetLang := none }

/-- A loaded environment with an undefined selection payload. -/
def noTextEnv : Env :=
  { language := "en"
    catalog := fun _ => UNKNOWN
    isLanguagesLoaded := true
    selectedText := none
    savedTargetLang := none }

/-! ## Frame lemmas -/

/-- `updateTargetLanguage` only ever touches the target language cell and its
mirror. -/
lemma updateTargetLanguage_frame (env : Env) (s : CState) :
    (updateTargetLanguage env s).error = s.error ∧
    (updateTargetLanguage env s).status = s.status ∧
    (updateTargetLanguage env s).contentToCopy = s.contentToCopy ∧
    (updateTargetLanguage env s).initialized = s.initialized ∧
    (updateTargetLanguage env s).assistantRef = s.assistantRef ∧
    (updateTargetLanguage env s).topicRef = s.topicRef ∧
    (updateTargetLanguage env s).askId = s.askId ∧
    (updateTargetLanguage env s).warnings = s.warnings ∧
    (updateTargetLanguage env s).errorsLogged = s.errorsLogged ∧
    (updateTargetLanguage env s).topicCreations = s.topicCreations ∧
    (updateTargetLanguage env s).submits = s.submits ∧
    (updateTargetLanguage env s).dbPuts = s.dbPuts ∧
    (updateTargetLanguage env s).aborts = s.aborts ∧
    (updateTargetLanguage env s).pausedTraces = s.pausedTraces := by
  unfold updateTargetLanguage
  split
  · simp
  · split
    · simp
    · split <;> simp

/-- `fetchResult` only ever touches the assistant ref and the submit trace. -/
lemma fetchResult_frame (env : Env) (s : CState) :
    (fetchResult env s).contentToCopy = s.contentToCopy ∧
    (fetchResult env s).error = s.error ∧
    (fetchResult env s).topicRef = s.topicRef ∧
    (fetchResult env s).status = s.status ∧
    (fetchResult env s).targetLanguage = s.targetLanguage ∧
    (fetchResult env s).targetLangRef = s.targetLangRef ∧
    (fetchResult env s).initialized = s.initialized ∧
    (fetchResult env s).dbPuts = s.dbPuts ∧
    (fetchResult env s).askId = s.askId ∧
    (fetchResult env s).warnings = s.warnings ∧
    (fetchResult env s).errorsLogged = s.errorsLogged ∧
    (fetchResult env s).topicCreations = s.topicCreations ∧
    (fetchResult env s).aborts = s.aborts ∧
    (fetchResult env s).pausedTraces = s.pausedTraces := by
  unfold fetchResult
  split
  · split
    · simp
    · split <;> simp
  · simp

/-- The init callback never touches the stored error message. -/
lemma initTranslate_error (env : Env) (s : CState) :
    (initTranslate env s).error = s.error := by
  unfold initTranslate
  split
  · rfl
  · split
    · rfl
    · split
      · rfl
      · simp [(updateTargetLanguage_frame env s).1]

/-- `handleChangeLanguage` never touches the stored error message. -/
lemma handleChangeLanguage_error (lang : TranslateLanguage) (s : CState) :
    (handleChangeLanguage lang s).error = s.error := by
  unfold handleChangeLanguage
  split <;> rfl

/-- `handlePause` never touches the stored error message. -/
lemma handlePause_error (s : CState) :
    (handlePause s).error = s.error := by
  by_cases h : s.askId = ""
  · simp only [handlePause, if_pos h]
    split
    · rfl
    · split <;> rfl
  · simp only [handlePause, if_neg h]
    split
    · rfl
    · split <;> rfl

/-- A topic created by `getDefaultTopic` always has a non-empty id. -/
lemma getDefaultTopic_id_ne_empty (assistantId : String) :
    (getDefaultTopic assistantId).id ≠ "" := by
  intro h
  have h2 := congrArg String.length h
  simp only [getDefaultTopic] at h2
  rw [String.length_append] at h2
  have h6 : ("topic-" : String).length = 6 := rfl
  have h0 : ("" : String).length = 0 := rfl
  omega

/-- A call to the init callback on an already-initialized controller is the
identity. -/
lemma initTranslate_of_initialized (env : Env) (s : CState)
    (h : s.initialized = true) : initTranslate env s = s := by
  simp [initTranslate, h]

/-- On a not-yet-initialized controller, one init call either leaves the
controller uninitialized with no topic created, or completes and creates
exactly one topic. -/
lemma initTranslate_cases (env : Env) (s : CState)
    (h : s.initialized = false) :
    ((initTranslate env s).initialized = false ∧
      (initTranslate env s).topicCreations = s.topicCreations) ∨
    ((initTranslate env s).initialized = true ∧
      (initTranslate env s).topicCreations = s.topicCreations + 1) := by
  unfold initTranslate
  rw [h]
  simp only [Bool.false_eq_true, if_false]
  split
  · left
    exact ⟨h, rfl⟩
  · split
    · left
      exact ⟨rfl, rfl⟩
    · right
      refine ⟨rfl, ?_⟩
      simp [(updateTargetLanguage_frame env s).2.2.2.2.2.2.2.2.2.1]

lemma initSeq_cons (e : Env) (es : List Env) (s : CState) :
    initSeq (e :: es) s = initSeq es (initTranslate e s) := rfl

/-- Over any sequence of init calls, the number of topics created grows by at
most one, and not at all when the controller is already initialized. -/
lemma initSeq_topicCreations_le (envs : List Env) (s : CState) :
    (initSeq envs s).topicCreations ≤
      s.topicCreations + (if s.initialized then 0 else 1) := by
  induction envs generalizing s with
  | nil =>
    rw [show initSeq [] s = s from rfl]
    split <;> omega
  | cons e es ih =>
    rw [initSeq_cons]
    by_cases hi : s.initialized = true
    · rw [initTranslate_of_initialized e s hi]
      exact ih s
    · have hf : s.initialized = false := by
        cases hsi : s.initialized
        · rfl
        · exact absurd hsi hi
      rcases initTranslate_cases e s hf with ⟨h1, h2⟩ | ⟨h1, h2⟩
      · have := ih (initTranslate e s)
        rw [h1, h2] at this
        rw [hf]
        simpa using this
      · have := ih (initTranslate e s)
        rw [h1, h2] at this
        rw [hf]
        simpa using this

/-! ## Claim theorems -/

/-- Claim C1: the status synchronizer maps the last assistant-role message of
the current topic to the controller status exactly as documented — pending,
processing or searching yield streaming; paused, error or success yield
finished; no assistant message leaves the status unchanged without warning;
any out-of-enumeration status leaves the status unchanged and logs a warning
(the switch is total, so it never crashes). -/
theorem sync_status_mapping (msgs : List Message) (st : ControllerStatus) :
    (currentAssistantMessage msgs = none → syncFromMessages msgs st = (st, false)) ∧
    (∀ m, currentAssistantMessage msgs = some m →
      ((m.status = AssistantMessageStatus.pending ∨
        m.status = AssistantMessageStatus.processing ∨
        m.status = AssistantMessageStatus.searching) →
        syncFromMessages msgs st = (ControllerStatus.streaming, false)) ∧
      ((m.status = AssistantMessageStatus.paused ∨
        m.status = AssistantMessageStatus.error ∨
        m.status = AssistantMessageStatus.success) →
        syncFromMessages msgs st = (ControllerStatus.finished, false)) ∧
      (∀ v, m.status = AssistantMessageStatus.other v →
        syncFromMessages msgs st = (st, true))) := by
  refine ⟨fun h => ?_, fun m hm => ⟨fun h => ?_, fun h => ?_, fun v h => ?_⟩⟩
  · simp [syncFromMessages, h, syncStatusStep]
  · rcases h with h | h | h <;> simp [syncFromMessages, hm, syncStatusStep, h]
  · rcases h with h | h | h <;> simp [syncFromMessages, hm, syncStatusStep, h]
  · simp [syncFromMessages, hm, syncStatusStep, h]

/-- Witness for C1: concrete evaluations of the synchronizer on a two-message
list whose last assistant message is searching, and on a list whose last
assistant message has an out-of-enumeration status. -/
theorem sync_status_mapping_check :
    syncFromMessages
      [⟨"user", AssistantMessageStatus.success⟩,
       ⟨"assistant", AssistantMessageStatus.searching⟩]
      ControllerStatus.preparing = (ControllerStatus.streaming, false) ∧
    syncFromMessages
      [⟨"assistant", AssistantMessageStatus.other "archived"⟩]
      ControllerStatus.finished = (ControllerStatus.finished, true) := by
  constructor
  · exact ((sync_status_mapping _ ControllerStatus.preparing).2
      ⟨"assistant", AssistantMessageStatus.searching⟩ (by decide)).1
      (Or.inr (Or.inr rfl))
  · exact (((sync_status_mapping _ ControllerStatus.finished).2
      ⟨"assistant", AssistantMessageStatus.other "archived"⟩ (by decide)).2.2
      "archived" rfl)

/-- Claim C7: when the interface language resolves to the catalog's unknown
sentinel, the initial target language is the fixed zh-CN default and one
warning is logged; when it resolves to a known entry, that entry is the
initial target language and no warning is logged. -/
theorem initial_language_fallback (env : Env) :
    (env.catalog env.language = UNKNOWN →
      (mkInitialState env).targetLanguage = LanguagesEnum.zhCN ∧
      (mkInitialState env).warnings = 1) ∧
    (env.catalog env.language ≠ UNKNOWN →
      (mkInitialState env).targetLanguage = env.catalog env.language ∧
      (mkInitialState env).warnings = 0) := by
  constructor
  · intro h
    simp [mkInitialState, initialTargetLanguage, h]
  · intro h
    simp [mkInitialState, initialTargetLanguage, h]

/-- Witness for C7: a catalog resolving everything to the unknown sentinel
yields the zh-CN default with one warning; a catalog resolving the interface
language to en-US yields en-US with no warning. -/
theorem initial_language_fallback_check :
    (mkInitialState
      { language := "xx", catalog := fun _ => UNKNOWN,
        isLanguagesLoaded := true, selectedText := some "hi",
        savedTargetLang := none }).targetLanguage = LanguagesEnum.zhCN ∧
    (mkInitialState
      { language := "en", catalog := fun _ => ⟨"en-US"⟩,
        isLanguagesLoaded := true, selectedText := some "hi",
        savedTargetLang := none }).targetLanguage = ⟨"en-US"⟩ := by
  constructor
  · exact ((initial_language_fallback
      { language := "xx", catalog := fun _ => UNKNOWN,
        isLanguagesLoaded := true, selectedText := some "hi",
        savedTargetLang := none }).1 rfl).1
  · exact ((initial_language_fallback
      { language := "en", catalog := fun _ => ⟨"en-US"⟩,
        isLanguagesLoaded := true, selectedText := some "hi",
        savedTargetLang := none }).2 (by decide)).1

/-- Claim C9: when the catalog is loaded and the persisted preference record
holds a non-empty code that the catalog does not resolve, the session target
language (reactive state and mutable mirror) is overwritten with the unknown
sentinel itself — there is no fallback to the zh-CN default on this path. -/
theorem persisted_unknown_no_fallback (env : Env) (s : CState) (v : String)
    (hload : env.isLanguagesLoaded = true)
    (hsaved : env.savedTargetLang = some v) (hne : v ≠ "")
    (hmiss : env.catalog v = UNKNOWN) :
    (updateTargetLanguage env s).targetLanguage = UNKNOWN ∧
    (updateTargetLanguage env s).targetLangRef = UNKNOWN ∧
    UNKNOWN ≠ LanguagesEnum.zhCN := by
  refine ⟨?_, ?_, by decide⟩ <;>
    simp [updateTargetLanguage, hload, hsaved, hne, hmiss]

/-- Witness for C9: a loaded catalog resolving nothing, with a persisted code
that no longer exists, drives the session language to the unknown sentinel. -/
theorem persisted_unknown_no_fallback_check :
    (updateTargetLanguage
      { language := "en", catalog := fun _ => UNKNOWN,
        isLanguagesLoaded := true, selectedText := some "hi",
        savedTargetLang := some "old-code" }
      (mkInitialState
        { language := "en", catalog := fun _ => UNKNOWN,
          isLanguagesLoaded := true, selectedText := some "hi",
          savedTargetLang := some "old-code" })).targetLanguage = UNKNOWN := by
  exact (persisted_unknown_no_fallback _ _ "old-code" rfl rfl (by decide) rfl).1

/-- Claim C5: `fetchResult` is a no-op — no submit, no state change — unless
the controller is initialized, both the assistant and topic refs are
present, and the selection text is present (truthy); in particular no fetch
can be issued before initialization completes. -/
theorem fetch_noop_without_preconditions (env : Env) (s : CState) :
    (s.initialized = false → fetchResult env s = s) ∧
    (s.assistantRef = none → fetchResult env s = s) ∧
    (s.topicRef = none → fetchResult env s = s) ∧
    (env.selectedText = none → fetchResult env s = s) ∧
    (env.selectedText = some "" → fetchResult env s = s) := by
  refine ⟨fun h => ?_, fun h => ?_, fun h => ?_, fun h => ?_, fun h => ?_⟩ <;>
    · unfold fetchResult
      split <;> simp_all

/-- Witness for C5: on the freshly mounted (uninitialized) controller no
fetch is issued. -/
theorem fetch_noop_without_preconditions_check :
    fetchResult demoEnv (mkInitialState demoEnv) = mkInitialState demoEnv :=
  (fetch_noop_without_preconditions demoEnv (mkInitialState demoEnv)).1 rfl

/-- Claim C8: `pause` requests cancellation of the stored ask id only when
one is non-empty; with no recorded ask id and no topic it is a complete
no-op; and it signals the tracing layer with the owning topic's id whenever
the topic ref holds a controller-created topic (whose id is always
non-empty). -/
theorem pause_best_effort (s : CState) :
    (s.askId = "" → (handlePause s).aborts = s.aborts) ∧
    (s.askId = "" → s.topicRef = none → handlePause s = s) ∧
    (s.askId ≠ "" → (handlePause s).aborts = s.aborts ++ [s.askId]) ∧
    (s.topicRef = none → (handlePause s).pausedTraces = s.pausedTraces) ∧
    (∀ t, s.topicRef = some t → t.id ≠ "" →
      (handlePause s).pausedTraces = s.pausedTraces ++ [t.id]) ∧
    (∀ aid, s.topicRef = some (getDefaultTopic aid) →
      (handlePause s).pausedTraces = s.pausedTraces ++ [(getDefaultTopic aid).id]) := by
  refine ⟨?_, ?_, ?_, ?_, ?_, ?_⟩
  · intro h
    simp only [handlePause, if_pos h]
    split
    · rfl
    · split <;> rfl
  · intro h ht
    simp [handlePause, h, ht]
  · intro h
    simp only [handlePause, if_neg h]
    split
    · rfl
    · split <;> rfl
  · intro ht
    by_cases h : s.askId = ""
    · simp [handlePause, h, ht]
    · simp [handlePause, h, ht]
  · intro t ht hid
    by_cases h : s.askId = ""
    · simp [handlePause, h, ht, hid]
    · simp [handlePause, h, ht, hid]
  · intro aid ht
    by_cases h : s.askId = ""
    · simp [handlePause, h, ht, getDefaultTopic_id_ne_empty aid]
    · simp [handlePause, h, ht, getDefaultTopic_id_ne_empty aid]

/-- Witness for C8: on the initialized controller, which has no recorded ask
id yet but a created topic, pause aborts nothing and pauses the topic's
trace. -/
theorem pause_best_effort_check :
    (handlePause demoReady).aborts = demoReady.aborts ∧
    (handlePause demoReady).pausedTraces =
      demoReady.pausedTraces ++ [(getDefaultTopic "translate").id] :=
  ⟨(pause_best_effort demoReady).1 rfl,
   (pause_best_effort demoReady).2.2.2.2.2 "translate" rfl⟩

/-- Claim C6: `regenerate` clears the stored copyable result text and then
runs `fetchResult` unconditionally (nothing in it reads the previous status
or content): afterwards the copyable content is empty whatever it was, the
topic is unchanged, and whenever the fetch preconditions hold — whatever the
previous status — exactly one new submit over the existing topic is
recorded. -/
theorem regenerate_clears_then_fetches (env : Env) (s : CState) :
    (handleRegenerate env s).contentToCopy = "" ∧
    (handleRegenerate env s).error = s.error ∧
    (handleRegenerate env s).topicRef = s.topicRef ∧
    (∀ a t text, s.assistantRef = some a → s.topicRef = some t →
      env.selectedText = some text → text ≠ "" → s.initialized = true →
      (handleRegenerate env s).submits =
        s.submits ++ [⟨getDefaultTranslateAssistant s.targetLanguage text, t,
          (getDefaultTranslateAssistant s.targetLanguage text).content⟩]) := by
  refine ⟨?_, ?_, ?_, ?_⟩
  · have h := (fetchResult_frame env { s with contentToCopy := "" }).1
    simpa [handleRegenerate] using h
  · have h := (fetchResult_frame env { s with contentToCopy := "" }).2.1
    simpa [handleRegenerate] using h
  · have h := (fetchResult_frame env { s with contentToCopy := "" }).2.2.1
    simpa [handleRegenerate] using h
  · intro a t text ha ht hsel hne hinit
    simp [handleRegenerate, fetchResult, ha, ht, hsel, hne, hinit]

/-- Witness for C6: regenerating on the finished controller with stored
content clears the content and records exactly one new submit over the
existing topic. -/
theorem regenerate_clears_then_fetches_check :
    (handleRegenerate demoEnv demoFinished).contentToCopy = "" ∧
    (handleRegenerate demoEnv demoFinished).submits =
      demoFinished.submits ++
        [⟨getDefaultTranslateAssistant demoFinished.targetLanguage "hello",
          getDefaultTopic "translate",
          (getDefaultTranslateAssistant demoFinished.targetLanguage "hello").content⟩] :=
  ⟨(regenerate_clears_then_fetches demoEnv demoFinished).1,
   (regenerate_clears_then_fetches demoEnv demoFinished).2.2.2
     (getDefaultTranslateAssistant ⟨"en-US"⟩ "hello") (getDefaultTopic "translate")
     "hello" rfl rfl rfl (by decide) rfl⟩

/-- Claim C4: the init callback completes only under its gate — while the
catalog is not loaded it is the identity even with selection text present;
with an undefined selection text it never constructs an assistant or topic
context under any catalog state, and on the catalog-ready path it logs an
error and skips; completion implies the catalog was loaded and the selection
text defined, and under the full gate it does complete, constructing both
contexts. -/
theorem init_gating (env : Env) (s : CState) :
    (env.isLanguagesLoaded = false → initTranslate env s = s) ∧
    (env.selectedText = none →
      (initTranslate env s).assistantRef = s.assistantRef ∧
      (initTranslate env s).topicRef = s.topicRef ∧
      (initTranslate env s).topicCreations = s.topicCreations ∧
      (initTranslate env s).initialized = s.initialized) ∧
    (env.selectedText = none → env.isLanguagesLoaded = true →
      s.initialized = false →
      (initTranslate env s).errorsLogged = s.errorsLogged + 1) ∧
    ((initTranslate env s).initialized = true →
      s.initialized = true ∨
      (env.isLanguagesLoaded = true ∧ env.selectedText ≠ none)) ∧
    (s.initialized = false → env.isLanguagesLoaded = true →
      ∀ text, env.selectedText = some text →
        (initTranslate env s).initialized = true ∧
        (initTranslate env s).assistantRef =
          some (getDefaultTranslateAssistant
            (updateTargetLanguage env s).targetLangRef text) ∧
        (initTranslate env s).topicRef =
          some (getDefaultTopic "translate")) := by
  refine ⟨fun h => ?_, fun h => ?_, fun h hl hi => ?_, fun h => ?_,
    fun hi hl text hsel => ?_⟩
  · simp [initTranslate, h]
  · unfold initTranslate
    split
    · simp
    · split
      · simp
      · simp [h]
  · simp [initTranslate, h, hl, hi]
  · by_cases hi : s.initialized = true
    · exact Or.inl hi
    · have hif : s.initialized = false := by simpa using hi
      by_cases hl : env.isLanguagesLoaded = true
      · by_cases hsel : env.selectedText = none
        · simp [initTranslate, hif, hl, hsel] at h
        · exact Or.inr ⟨hl, hsel⟩
      · have hlf : env.isLanguagesLoaded = false := by simpa using hl
        simp [initTranslate, hif, hlf] at h
  · simp [initTranslate, hi, hl, hsel, getDefaultTranslateAssistant]

/-- Witness for C4: the not-loaded environment leaves the fresh controller
untouched; the loaded environment without selection text logs one error and
creates nothing; the full gate completes initialization. -/
theorem init_gating_check :
    initTranslate notLoadedEnv (mkInitialState notLoadedEnv) =
      mkInitialState notLoadedEnv ∧
    (initTranslate noTextEnv (mkInitialState noTextEnv)).errorsLogged =
      (mkInitialState noTextEnv).errorsLogged + 1 ∧
    (initTranslate noTextEnv (mkInitialState noTextEnv)).topicRef =
      (mkInitialState noTextEnv).topicRef ∧
    (initTranslate demoEnv (mkInitialState demoEnv)).initialized = true :=
  ⟨(init_gating notLoadedEnv (mkInitialState notLoadedEnv)).1 rfl,
   (init_gating noTextEnv (mkInitialState noTextEnv)).2.2.1 rfl rfl rfl,
   ((init_gating noTextEnv (mkInitialState noTextEnv)).2.1 rfl).2.1,
   ((init_gating demoEnv (mkInitialState demoEnv)).2.2.2.2 rfl rfl
     "hello" rfl).1⟩

/-- Claim C3: initialization is idempotent — once the controller is marked
initialized every further init call is the identity, and over any sequence
of init calls starting from an uninitialized controller at most one topic
creation ever happens. -/
theorem init_idempotent_once :
    (∀ env s, s.initialized = true → initTranslate env s = s) ∧
    (∀ envs s, s.initialized = false →
      (initSeq envs s).topicCreations ≤ s.topicCreations + 1) := by
  refine ⟨initTranslate_of_initialized, fun envs s h => ?_⟩
  have := initSeq_topicCreations_le envs s
  rw [h] at this
  simpa using this

/-- Witness for C3: a second init call on the initialized controller is the
identity, and three init calls from mount create at most one topic. -/
theorem init_idempotent_once_check :
    initTranslate demoEnv demoReady = demoReady ∧
    (initSeq [demoEnv, demoEnv, demoEnv] (mkInitialState demoEnv)).topicCreations ≤
      (mkInitialState demoEnv).topicCreations + 1 :=
  ⟨init_idempotent_once.1 demoEnv demoReady (by decide),
   init_idempotent_once.2 [demoEnv, demoEnv, demoEnv] (mkInitialState demoEnv) rfl⟩

/-- Counterexample for C2: with the selection payload equal to the empty
string, initialization completes, yet a post-initialization language change
updates state and persists the code without issuing any fetch — zero new
submits, not exactly one. -/
theorem change_language_no_fetch_cex :
    emptySelReady.initialized = true ∧
    (changeLanguageAndRefetch emptySelEnv LanguagesEnum.zhCN emptySelReady).targetLanguage =
      LanguagesEnum.zhCN ∧
    (changeLanguageAndRefetch emptySelEnv LanguagesEnum.zhCN emptySelReady).dbPuts =
      [("translate:target:language", "zh-CN")] ∧
    emptySelReady.submits = [] ∧
    (changeLanguageAndRefetch emptySelEnv LanguagesEnum.zhCN emptySelReady).submits = [] := by
  refine ⟨by decide, by decide, by decide, by decide, by decide⟩

/-- Claim C2 (amended): a post-initialization `changeLanguage(B)` is a no-op
when not initialized; otherwise it updates the session target language in
state and mirror and persists B's code, and — provided the change lands (B
differs from the current language) and the selection text is non-empty — it
results in exactly one new fetch submitting an assistant built from B over
the original, unchanged topic. -/
theorem change_language_single_fetch (env : Env) (B : TranslateLanguage)
    (s : CState) :
    (s.initialized = false → changeLanguageAndRefetch env B s = s) ∧
    (s.initialized = true →
      (changeLanguageAndRefetch env B s).targetLanguage = B ∧
      (changeLanguageAndRefetch env B s).targetLangRef = B ∧
      (changeLanguageAndRefetch env B s).dbPuts =
        s.dbPuts ++ [("translate:target:language", B.langCode)] ∧
      (changeLanguageAndRefetch env B s).topicRef = s.topicRef ∧
      (∀ a t text, B ≠ s.targetLanguage → s.assistantRef = some a →
        s.topicRef = some t → env.selectedText = some text → text ≠ "" →
        (changeLanguageAndRefetch env B s).submits =
          s.submits ++ [⟨getDefaultTranslateAssistant B text, t,
            (getDefaultTranslateAssistant B text).content⟩])) := by
  constructor
  · intro h
    simp [changeLanguageAndRefetch, handleChangeLanguage, h]
  · intro h
    by_cases hB : B = s.targetLanguage
    · refine ⟨?_, ?_, ?_, ?_, ?_⟩ <;>
        simp [changeLanguageAndRefetch, handleChangeLanguage, h, hB]
    · have hguard : (s.initialized = true ∧ B ≠ s.targetLanguage) := ⟨h, hB⟩
      refine ⟨?_, ?_, ?_, ?_, ?_⟩
      · simp only [changeLanguageAndRefetch, if_pos hguard]
        rw [(fetchResult_frame env (handleChangeLanguage B s)).2.2.2.2.1]
        simp [handleChangeLanguage, h]
      · simp only [changeLanguageAndRefetch, if_pos hguard]
        rw [(fetchResult_frame env (handleChangeLanguage B s)).2.2.2.2.2.1]
        simp [handleChangeLanguage, h]
      · simp only [changeLanguageAndRefetch, if_pos hguard]
        rw [(fetchResult_frame env (handleChangeLanguage B s)).2.2.2.2.2.2.2.1]
        simp [handleChangeLanguage, h]
      · simp only [changeLanguageAndRefetch, if_pos hguard]
        rw [(fetchResult_frame env (handleChangeLanguage B s)).2.2.1]
        simp [handleChangeLanguage, h]
      · intro a t text hne ha ht hsel htext
        simp only [changeLanguageAndRefetch, if_pos hguard]
        simp [handleChangeLanguage, fetchResult, h, ha, ht, hsel, htext]

/-- Witness for C2 (amended): on the initialized controller with non-empty
selection, switching to zh-CN records exactly one new submit built from
zh-CN over the original topic. -/
theorem change_language_single_fetch_check :
    (changeLanguageAndRefetch demoEnv LanguagesEnum.zhCN demoReady).targetLanguage =
      LanguagesEnum.zhCN ∧
    (changeLanguageAndRefetch demoEnv LanguagesEnum.zhCN demoReady).submits =
      demoReady.submits ++ [⟨getDefaultTranslateAssistant LanguagesEnum.zhCN "hello",
        getDefaultTopic "translate",
        (getDefaultTranslateAssistant LanguagesEnum.zhCN "hello").content⟩] :=
  ⟨((change_language_single_fetch demoEnv LanguagesEnum.zhCN demoReady).2 rfl).1,
   ((change_language_single_fetch demoEnv LanguagesEnum.zhCN demoReady).2 rfl).2.2.2.2
     (getDefaultTranslateAssistant ⟨"en-US"⟩ "hello") (getDefaultTopic "translate")
     "hello" (by decide) rfl rfl rfl (by decide)⟩

/-- Claim C10: the stored error message is written only by the on-error
fetch callback (and then to exactly its message) and is never cleared by any
other operation; in particular regenerate clears the copyable content but
leaves the error text unchanged, and an error message persists across a
later regeneration even when that one finishes successfully. -/
theorem error_write_frame :
    (∀ op s, (step op s).error = s.error ∨
      ∃ m, op = Op.errCb m ∧ (step op s).error = m) ∧
    (∀ env s, (step (Op.regenerate env) s).error = s.error ∧
      (step (Op.regenerate env) s).contentToCopy = "") ∧
    (∀ env content s,
      (step (Op.finish content) (step (Op.regenerate env) s)).error = s.error) := by
  have hreg : ∀ env s, (step (Op.regenerate env) s).error = s.error := by
    intro env s
    have h := (fetchResult_frame env { s with contentToCopy := "" }).2.1
    simpa [step, handleRegenerate] using h
  have hregc : ∀ env s, (step (Op.regenerate env) s).contentToCopy = "" := by
    intro env s
    have h := (fetchResult_frame env { s with contentToCopy := "" }).1
    simpa [step, handleRegenerate] using h
  refine ⟨fun op s => ?_, fun env s => ⟨hreg env s, hregc env s⟩,
    fun env content s => ?_⟩
  · cases op with
    | init env => exact Or.inl (initTranslate_error env s)
    | updateLang env => exact Or.inl (updateTargetLanguage_frame env s).1
    | fetch env => exact Or.inl (fetchResult_frame env s).2.1
    | changeLang env lang =>
      left
      simp only [step, changeLanguageAndRefetch]
      split
      · rw [(fetchResult_frame env (handleChangeLanguage lang s)).2.1]
        exact handleChangeLanguage_error lang s
      · exact handleChangeLanguage_error lang s
    | pause => exact Or.inl (handlePause_error s)
    | regenerate env => exact Or.inl (hreg env s)
    | sync msgs => exact Or.inl rfl
    | setAskId id => exact Or.inl rfl
    | stream => exact Or.inl rfl
    | finish content => exact Or.inl rfl
    | errCb message => exact Or.inr ⟨message, rfl, rfl⟩
  · rw [show (step (Op.finish content) (step (Op.regenerate env) s)).error =
      (step (Op.regenerate env) s).error from rfl]
    exact hreg env s

end ActionTranslate
